import Mathlib

/-! Verification development for the TipsterHeroes football-analysis
    application.  The Python functions of data_service.py, agents.py, app.py
    and agent_chat_with_memory.py are shallowly embedded as executable Lean
    definitions, and the specified properties are settled against them. -/

/-! ## Python string primitives

    Executable models of the Python string operations used by the source
    (str.replace, str.split, str.strip, str.lower, "sep".join), defined over
    character lists with structural recursion so that every definition
    reduces inside the kernel. -/

/-- One fuel-indexed pass of Python str.replace over a character list:
    scan left to right, replacing each non-overlapping occurrence. -/
def replaceFuel (old new : List Char) : Nat → List Char → List Char
  | 0, s => s
  | _ + 1, [] => []
  | fuel + 1, c :: cs =>
    if old.isPrefixOf (c :: cs) then
      new ++ replaceFuel old new fuel ((c :: cs).drop old.length)
    else
      c :: replaceFuel old new fuel cs

/-- Python str.replace(old, new), total for the non-empty patterns the
    source uses. -/
def pyReplace (s old new : String) : String :=
  ⟨replaceFuel old.toList new.toList (s.toList.length + 1) s.toList⟩

/-- Fuel-indexed worker for Python str.split(sep). -/
def splitFuel (sep : List Char) : Nat → List Char → List Char → List (List Char)
  | 0, acc, s => [acc.reverse ++ s]
  | _ + 1, acc, [] => [acc.reverse]
  | fuel + 1, acc, c :: cs =>
    if sep.isPrefixOf (c :: cs) then
      acc.reverse :: splitFuel sep fuel [] ((c :: cs).drop sep.length)
    else
      splitFuel sep fuel (c :: acc) cs

/-- Python str.split(sep) for a non-empty separator. -/
def pySplit (s sep : String) : List String :=
  (splitFuel sep.toList (s.toList.length + 1) [] s.toList).map (fun l => ⟨l⟩)

/-- Python str.strip(): remove leading and trailing whitespace. -/
def pyStrip (s : String) : String :=
  ⟨((s.toList.dropWhile Char.isWhitespace).reverse.dropWhile Char.isWhitespace).reverse⟩

/-- Python str.lower() (ASCII is all the source needs). -/
def pyLower (s : String) : String :=
  ⟨s.toList.map Char.toLower⟩

/-- Python "sep".join(parts). -/
def joinSep (sep : String) : List String → String
  | [] => ""
  | [x] => x
  | x :: xs => x ++ sep ++ joinSep sep xs

/-! ## Calendar dates and strftime

    match_date values flow through the code as datetime.date objects and are
    rendered with strftime, either as %Y-%m-%d (database keys) or
    %d %B %Y (display strings). -/

/-- Zero-pad a number to two digits, as %d / %m do. -/
def pad2 (n : Nat) : String :=
  if n < 10 then "0" ++ toString n else toString n

/-- Zero-pad a number to four digits, as %Y does. -/
def pad4 (n : Nat) : String :=
  if n < 10 then "000" ++ toString n
  else if n < 100 then "00" ++ toString n
  else if n < 1000 then "0" ++ toString n
  else toString n

/-- A calendar date as carried by the application. -/
structure Date where
  year : Nat
  month : Nat
  day : Nat
deriving DecidableEq, Repr

/-- Full English month name, as %B renders it. -/
def monthName (m : Nat) : String :=
  ["January", "February", "March", "April", "May", "June", "July",
   "August", "September", "October", "November", "December"].getD (m - 1) "Unknown"

/-- strftime %Y-%m-%d. -/
def fmtYmd (d : Date) : String :=
  pad4 d.year ++ "-" ++ pad2 d.month ++ "-" ++ pad2 d.day

/-- strftime %d %B %Y. -/
def fmtDmy (d : Date) : String :=
  pad2 d.day ++ " " ++ monthName d.month ++ " " ++ pad4 d.year

/-! ## The results dictionary

    The stage outputs travel through the code as a Python dict keyed by
    stage name; key presence is modelled by Option.  The betting-insights
    entry (a regex post-extraction over the final text) is orthogonal to
    every property considered here and is not part of the record model. -/

/-- The analysis-results dictionary.  A field is some s exactly when the
    corresponding key is present in the Python dict. -/
structure ResultsDict where
  raw_news : Option String := none
  scraped_content : Option String := none
  synthesized_news : Option String := none
  initial_analysis : Option String := none
  enhanced_analysis : Option String := none
  db_insights : Option String := none
  combined_analysis : Option String := none
  source_type : Option String := none
  original_html : Option String := none
deriving DecidableEq, Repr

/-- match_info dicts: the "match" key always holds "home vs away". -/
structure MatchInfo where
  matchName : String
  league : String
  date : Date
deriving DecidableEq, Repr

/-! ## data_service.setup_chat_with_context (lines 734 to 766)

    The chat-context builder.  It picks combined_analysis when present and
    otherwise falls back to results.get("enhanced_analysis", ""); the
    database insights are appended afterwards as their own labelled
    section. -/

/-- The analysis text setup_chat_with_context selects for the context
    (data_service.py lines 740 to 743). -/
def setupChatAnalysisForContext (results : ResultsDict) : String :=
  match results.combined_analysis with
  | some c => c
  | none => results.enhanced_analysis.getD ""

/-- The chat context string setup_chat_with_context stores in
    st.session_state.chat_context (data_service.py lines 745 to 766). -/
def setupChatWithContext (results : ResultsDict) (fullQuery : String) : String :=
  let analysisForContext := setupChatAnalysisForContext results
  let fullAnalysis :=
    "\n    MATCH: " ++ fullQuery ++ "\n    \n    ANALYSIS:\n    "
      ++ analysisForContext ++ "\n    "
  match results.db_insights with
  | some db =>
      fullAnalysis ++ "\n        \n        DATABASE INSIGHTS:\n        " ++ db ++ "\n        "
  | none => fullAnalysis

/-! ## data_service.format_content_for_wordpress (lines 550 to 678)

    The WordPress formatter is the place that implements the full four-way
    priority combined_analysis, enhanced_analysis, db_insights,
    initial_analysis. -/

/-- The "best available" analysis text chosen by format_content_for_wordpress
    (data_service.py lines 553 to 561). -/
def formatMainAnalysis (results : ResultsDict) : String :=
  match results.combined_analysis with
  | some c => c
  | none =>
    match results.enhanced_analysis with
    | some e => e
    | none =>
      match results.db_insights with
      | some d => d
      | none => results.initial_analysis.getD "Analysis not available."

/-- The paragraph/heading markup conversion applied to the selected analysis
    (data_service.py lines 563 to 571). -/
def mainAnalysisHtml (main : String) : String :=
  let htmlContent := pyReplace (pyReplace main "\n\n" "</p><p>") "\n" "<br>"
  let htmlContent := "<p>" ++ htmlContent ++ "</p>"
  let htmlContent := pyReplace (pyReplace htmlContent "<p>###" "<h3>") "###</p>" "</h3>"
  let htmlContent := pyReplace (pyReplace htmlContent "<p>##" "<h2>") "##</p>" "</h2>"
  pyReplace (pyReplace htmlContent "<p>#" "<h1>") "#</p>" "</h1>"

/-- The header section of the formatted post (data_service.py lines 574 to 582). -/
def wpHeader (matchInfo : MatchInfo) : String :=
  "\n    <h1>" ++ matchInfo.matchName ++ " - Match Analysis</h1>\n    <p class=\"match-info\">"
    ++ matchInfo.league ++ " | " ++ fmtDmy matchInfo.date
    ++ "</p>\n    <div class=\"match-banner\">\n        <div class=\"team home-team\">"
    ++ (pySplit matchInfo.matchName " vs ").getD 0 ""
    ++ "</div>\n        <div class=\"vs\">VS</div>\n        <div class=\"team away-team\">"
    ++ (pySplit matchInfo.matchName " vs ").getD 1 ""
    ++ "</div>\n    </div>\n    "

/-- The fixed introduction block (data_service.py lines 585 to 593). -/
def wpIntro : String :=
  "\n    <p class=\"intro\">\n        Welcome to our in-depth match analysis and prediction. "
    ++ "In this article, we\x27ll break down the key factors \n        that could influence "
    ++ "the outcome of this match, including team form, key players, tactics, and historical \n"
    ++ "        head-to-head records. Our AI-powered analysis combines the latest news, "
    ++ "statistical data, and expert insights \n        to provide you with the most "
    ++ "comprehensive match preview available.\n    </p>\n    <div class=\"divider\"></div>\n    "

/-- The fixed conclusion block (data_service.py lines 606 to 618). -/
def wpConclusion : String :=
  "\n    <div class=\"divider\"></div>\n    <h2>Conclusion</h2>\n    <p>\n        This analysis "
    ++ "has been generated by TipsterHeroes.AI, combining cutting-edge artificial intelligence "
    ++ "with comprehensive \n        football data. While we strive for accuracy in our analysis "
    ++ "and predictions, football remains inherently unpredictable. \n        Always gamble "
    ++ "responsibly and use this information as just one of many resources when making betting "
    ++ "decisions.\n    </p>\n    <p class=\"disclaimer\">\n        <strong>Disclaimer:</strong> "
    ++ "This content is for informational purposes only. Betting involves risk and you should "
    ++ "never \n        bet more than you can afford to lose.\n    </p>\n    "

/-- The statistical-insights section appended when db_insights exists and
    differs from the chosen main analysis (data_service.py lines 599 to 603). -/
def wpDbSection (results : ResultsDict) (mainAnalysis : String) : String :=
  match results.db_insights with
  | some d =>
      if d = mainAnalysis then ""
      else
        "<h2>Statistical Insights</h2>"
          ++ ("<p>" ++ pyReplace (pyReplace d "\n\n" "</p><p>") "\n" "<br>" ++ "</p>")
  | none => ""

/-- The CSS style block of the WordPress wrapper (data_service.py lines
    626 to 673); literal braces are the CSS ones. -/
def wpStyleBlock : String :=
  "\n    <!-- wp:html -->\n    <style>\n        .match-info \x7b\n            text-align: center;"
    ++ "\n            font-size: 1.2em;\n            color: #666;\n            margin-bottom: 2em;"
    ++ "\n        \x7d\n        .match-banner \x7b\n            display: flex;\n            "
    ++ "justify-content: space-between;\n            align-items: center;\n            "
    ++ "background: #f5f5f5;\n            padding: 2em;\n            border-radius: 10px;\n"
    ++ "            margin: 2em 0;\n        \x7d\n        .team \x7b\n            font-size: 1.5em;"
    ++ "\n            font-weight: bold;\n            flex: 1;\n        \x7d\n        .home-team "
    ++ "\x7b\n            text-align: right;\n        \x7d\n        .away-team \x7b\n            "
    ++ "text-align: left;\n        \x7d\n        .vs \x7b\n            font-size: 1.2em;\n"
    ++ "            padding: 0 2em;\n            color: #999;\n        \x7d\n        .intro \x7b\n"
    ++ "            font-size: 1.1em;\n            line-height: 1.6;\n        \x7d\n        "
    ++ ".divider \x7b\n            height: 1px;\n            background: #ddd;\n            "
    ++ "margin: 2em 0;\n        \x7d\n        .disclaimer \x7b\n            background: #f8f8f8;\n"
    ++ "            padding: 1em;\n            border-left: 4px solid #d44;\n            "
    ++ "margin: 2em 0;\n        \x7d\n    </style>\n    "

/-- data_service.format_content_for_wordpress: the full WordPress HTML text
    stored as the content column of a blog_analyses row. -/
def formatContentForWordpress (matchInfo : MatchInfo) (results : ResultsDict) : String :=
  let mainAnalysis := formatMainAnalysis results
  let fullContent :=
    wpHeader matchInfo ++ wpIntro
      ++ ("<h2>Match Analysis</h2>" ++ mainAnalysisHtml mainAnalysis)
      ++ wpDbSection results mainAnalysis
      ++ wpConclusion
  wpStyleBlock ++ fullContent ++ "\n    <!-- /wp:html -->\n    "

/-! ## data_service.parse_wordpress_analysis (lines 955 to 987)

    The markup-stripping step applied when a persisted analysis record is
    loaded.  The source parses the stored content with BeautifulSoup
    (html.parser, which adds no implicit wrapper elements), removes style
    elements, then walks find_all on h1, h2, p and div in document order and
    concatenates the stripped text of every element that is non-empty and
    not of class match-banner, divider or disclaimer.  The model below
    embeds the relevant slice of that parsing behaviour: tokenizing into
    text, comments, open and close tags (with the class attribute), building
    the element tree with a stack that closes unmatched elements leniently,
    and extracting text. -/

/-- Lexer tokens of the HTML fragment grammar. -/
inductive Tok where
  | text (s : List Char)
  | openTag (tag : String) (classes : List String)
  | closeTag (tag : String)
  | comment
deriving DecidableEq, Repr

/-- A parsed HTML node: a text run or an element with tag, class list and
    children. -/
inductive Html where
  | text (s : String)
  | elem (tag : String) (classes : List String) (children : List Html)
deriving Repr

/-- Split a character list at the first angle-bracket opening a tag. -/
def textSpan : List Char → List Char × List Char
  | [] => ([], [])
  | c :: cs =>
    if c = '<' then ([], c :: cs)
    else
      let (t, r) := textSpan cs
      (c :: t, r)

/-- Consume the inside of a tag up to the closing angle bracket. -/
def tagSpan : List Char → List Char × List Char
  | [] => ([], [])
  | c :: cs =>
    if c = '>' then ([], cs)
    else
      let (t, r) := tagSpan cs
      (c :: t, r)

/-- Skip the rest of an HTML comment. -/
def commentSpan : List Char → List Char
  | [] => []
  | '-' :: '-' :: '>' :: cs => cs
  | _ :: cs => commentSpan cs

/-- Characters allowed in a tag name. -/
def isNameChar (c : Char) : Bool :=
  c.isAlphanum || c = '-'

/-- Split a character list on a separator character. -/
def splitOnCharAux (sep : Char) : List Char → List Char → List String
  | [], acc => [⟨acc.reverse⟩]
  | c :: cs, acc =>
    if c = sep then ⟨acc.reverse⟩ :: splitOnCharAux sep cs []
    else splitOnCharAux sep cs (c :: acc)

/-- Locate the value of a class attribute inside a tag body. -/
def afterClassAttr : List Char → Option (List Char)
  | 'c' :: 'l' :: 'a' :: 's' :: 's' :: '=' :: '"' :: rest => some rest
  | _ :: cs => afterClassAttr cs
  | [] => none

/-- The class list of a tag, as BeautifulSoup reports it (the attribute
    value split on whitespace). -/
def extractClasses (attrs : List Char) : List String :=
  match afterClassAttr attrs with
  | none => []
  | some rest => (splitOnCharAux ' ' (rest.takeWhile (· ≠ '"')) []).filter (· ≠ "")

/-- Interpret the inside of a tag as an open or close token. -/
def parseTagTok (content : List Char) : Tok :=
  match content with
  | '/' :: rest => Tok.closeTag ⟨(rest.dropWhile (· = ' ')).takeWhile isNameChar⟩
  | _ =>
    let name := content.takeWhile isNameChar
    Tok.openTag ⟨name⟩ (extractClasses (content.drop name.length))

/-- Tokenize an HTML fragment; the fuel argument is one more than the input
    length, which every step strictly consumes. -/
def tokenize : Nat → List Char → List Tok
  | 0, _ => []
  | _ + 1, [] => []
  | fuel + 1, c :: cs =>
    if c = '<' then
      match cs with
      | '!' :: '-' :: '-' :: rest => Tok.comment :: tokenize fuel (commentSpan rest)
      | _ =>
        let (content, rest) := tagSpan cs
        parseTagTok content :: tokenize fuel rest
    else
      let (t, rest) := textSpan (c :: cs)
      Tok.text t :: tokenize fuel rest

/-- Open-element stack frames: tag, classes, reversed children so far. -/
abbrev Frame := String × List String × List Html

/-- Attach a finished node to the innermost open element, or to the
    (reversed) top-level forest when no element is open. -/
def addToTop (n : Html) : List Frame → List Html → List Frame × List Html
  | [], acc => ([], n :: acc)
  | (t, cl, ch) :: st, acc => ((t, cl, n :: ch) :: st, acc)

/-- Elements that take no children (void elements of html.parser). -/
def isVoidTag (t : String) : Bool :=
  t = "br" || t = "hr" || t = "img" || t = "meta" || t = "input" || t = "link"

/-- Does any open frame carry the given tag? -/
def stackHasTag (t : String) : List Frame → Bool
  | [] => false
  | (t', _, _) :: st => t' = t || stackHasTag t st

/-- Close open frames until one with the given tag has been closed; the
    fuel is the stack length. -/
def closeUntil : Nat → String → List Frame → List Html → List Frame × List Html
  | 0, _, st, acc => (st, acc)
  | fuel + 1, t, st, acc =>
    match st with
    | [] => ([], acc)
    | (t', cl, ch) :: rest =>
      let (st', acc') := addToTop (Html.elem t' cl ch.reverse) rest acc
      if t' = t then (st', acc') else closeUntil fuel t st' acc'

/-- Close one open frame (used at end of input). -/
def closeTop : List Frame → List Html → List Frame × List Html
  | [], acc => ([], acc)
  | (t, cl, ch) :: st, acc => addToTop (Html.elem t cl ch.reverse) st acc

/-- Close every frame still open at end of input. -/
def unwind : Nat → List Frame → List Html → List Html
  | 0, _, acc => acc.reverse
  | fuel + 1, st, acc =>
    match st with
    | [] => acc.reverse
    | _ =>
      let (st', acc') := closeTop st acc
      unwind fuel st' acc'

/-- Apply one token to the builder state. -/
def buildStep (tok : Tok) (st : List Frame) (acc : List Html) : List Frame × List Html :=
  match tok with
  | Tok.text s => addToTop (Html.text ⟨s⟩) st acc
  | Tok.comment => (st, acc)
  | Tok.openTag t cl =>
    if isVoidTag t then addToTop (Html.elem t cl []) st acc
    else ((t, cl, []) :: st, acc)
  | Tok.closeTag t =>
    if stackHasTag t st then closeUntil st.length t st acc
    else (st, acc)

/-- Fold the token stream into a node forest. -/
def buildAux : List Tok → List Frame → List Html → List Html
  | [], st, acc => unwind st.length st acc
  | tok :: toks, st, acc =>
    let (st', acc') := buildStep tok st acc
    buildAux toks st' acc'

/-- Build the document forest of a token stream. -/
def buildForest (toks : List Tok) : List Html :=
  buildAux toks [] []

mutual

/-- BeautifulSoup elem.text: the concatenated text of all descendants. -/
def htmlText : Html → String
  | Html.text s => s
  | Html.elem _ _ cs => htmlTextList cs

/-- Concatenated text of a node list. -/
def htmlTextList : List Html → String
  | [] => ""
  | h :: t => htmlText h ++ htmlTextList t

end

mutual

/-- Remove style elements everywhere, as the style.decompose loop does. -/
def removeStyles : List Html → List Html
  | [] => []
  | h :: t => removeStylesNode h ++ removeStyles t

/-- Remove style elements below one node. -/
def removeStylesNode : Html → List Html
  | Html.text s => [Html.text s]
  | Html.elem tag cl cs =>
    if tag = "style" then []
    else [Html.elem tag cl (removeStyles cs)]

end

mutual

/-- find_all over a forest, in document (pre-)order. -/
def findAllList (tags : List String) : List Html → List Html
  | [] => []
  | h :: t => findAllNode tags h ++ findAllList tags t

/-- find_all below (and including) one node. -/
def findAllNode (tags : List String) : Html → List Html
  | Html.text _ => []
  | Html.elem tag cl cs =>
    (if tags.contains tag then [Html.elem tag cl cs] else []) ++ findAllList tags cs

end

/-- The class list of a node (empty for text nodes and class-less elements,
    matching a None result of elem.get in the source). -/
def htmlClasses : Html → List String
  | Html.text _ => []
  | Html.elem _ cl _ => cl

/-- The element classes parse_wordpress_analysis skips. -/
def ignoredClasses : List String :=
  ["match-banner", "divider", "disclaimer"]

/-- data_service.parse_wordpress_analysis: strip the stored WordPress markup
    back to plain analysis text. -/
def parseWordpressAnalysis (htmlContent : String) : String :=
  let nodes := removeStyles (buildForest (tokenize (htmlContent.length + 1) htmlContent.toList))
  let elems := findAllList ["h1", "h2", "p", "div"] nodes
  elems.foldl
    (fun output elem =>
      if pyStrip (htmlText elem) = ""
          || (htmlClasses elem ≠ []
               && (htmlClasses elem).any (fun c => ignoredClasses.contains c)) then
        output
      else
        output ++ pyStrip (htmlText elem) ++ "\n\n")
    ""

/-! ## The Supabase tables

    The rows the embedded functions read and write.  Dates inside match rows
    are day numbers (pandas datetime arithmetic on them is integer
    arithmetic on days). -/

/-- A teams row (the columns the code touches). -/
structure Team where
  team_id : Nat
  team_name : String
  common_name : String
deriving DecidableEq, Repr

/-- A leagues row. -/
structure LeagueRow where
  league_id : Nat
  league : String
deriving DecidableEq, Repr

/-- A matches row (the columns the code touches). -/
structure MatchRow where
  match_id : Nat
  hometeam_id : Nat
  awayteam_id : Nat
  date : Int
deriving DecidableEq, Repr

/-- A blog_analyses row, as save_analysis_for_wordpress writes it.  The
    raw_content column stores json.dumps(results), modelled by the value
    itself; the wall-clock analysis_date and the fixed SEO strings are
    omitted because nothing reads them back. -/
structure BlogRecord where
  id : Nat
  title : String
  slug : String
  content : String
  rawContent : ResultsDict
  home_team_id : Option Nat
  away_team_id : Option Nat
  league_id : Option Nat
  match_id : Option Nat
  match_date : String
  status : String
  tags : List String
deriving DecidableEq, Repr

/-- The database state. nextId is the id the next inserted blog_analyses
    row receives. -/
structure Db where
  teams : List Team
  leagues : List LeagueRow
  matchRows : List MatchRow
  analyses : List BlogRecord
  nextId : Nat
deriving DecidableEq, Repr

/-- The query interface the cache functions run against.  Every operation
    can fail with a backend exception, modelled as Except.error. -/
structure Backend where
  teamIdByTeamName : String → Except String (List Nat)
  teamIdByCommonName : String → Except String (List Nat)
  analysisIdsByKey : Option Nat → Option Nat → String → Except String (List Nat)

/-- The backend over a concrete database state.  PostgREST equality filters
    never match a NULL column, and filtering on a Python None id is a type
    error on the server, surfaced as a raised exception. -/
def dbBackend (db : Db) : Backend where
  teamIdByTeamName n :=
    Except.ok ((db.teams.filter (fun t => t.team_name = n)).map (fun t => t.team_id))
  teamIdByCommonName n :=
    Except.ok ((db.teams.filter (fun t => t.common_name = n)).map (fun t => t.team_id))
  analysisIdsByKey hid aid ds :=
    match hid, aid with
    | some h, some a =>
      Except.ok
        (((db.analyses.filter
            (fun r => r.home_team_id = some h && r.away_team_id = some a
                        && r.match_date = ds)).map (fun r => r.id)).take 1)
    | _, _ => Except.error "invalid input syntax for type integer"

/-- data_service.get_team_id_by_name (lines 203 to 218): first by team_name,
    then by common_name; any exception in the try body yields None. -/
def getTeamIdByName (b : Backend) (teamName : String) : Option Nat :=
  match b.teamIdByTeamName teamName with
  | Except.error _ => none
  | Except.ok (id :: _) => some id
  | Except.ok [] =>
    match b.teamIdByCommonName teamName with
    | Except.error _ => none
    | Except.ok (id :: _) => some id
    | Except.ok [] => none

/-- data_service.get_league_id_by_name (lines 220 to 229). -/
def getLeagueIdByName (db : Db) (leagueName : String) : Option Nat :=
  ((db.leagues.filter (fun l => l.league = leagueName)).map (fun l => l.league_id)).head?

/-- data_service.check_analysis_exists (lines 680 to 701): look up a
    persisted analysis by resolved team ids and the %Y-%m-%d date string;
    any exception in the try body yields (False, None). -/
def checkAnalysisExists (b : Backend) (homeTeam awayTeam : String) (matchDate : Date) :
    Bool × Option Nat :=
  let homeTeamId := getTeamIdByName b homeTeam
  let awayTeamId := getTeamIdByName b awayTeam
  let dateStr := fmtYmd matchDate
  match b.analysisIdsByKey homeTeamId awayTeamId dateStr with
  | Except.error _ => (false, none)
  | Except.ok rows => (decide (rows.length > 0), rows.head?)

/-- data_service.get_analysis_by_id (lines 703 to 712). -/
def getAnalysisById (db : Db) (analysisId : Option Nat) : Option BlogRecord :=
  match analysisId with
  | none => none
  | some i => (db.analyses.filter (fun r => r.id = i)).head?

/-- Python truthiness of an optional integer id (None and 0 are falsy). -/
def truthyId : Option Nat → Bool
  | none => false
  | some n => decide (n ≠ 0)

/-- data_service.save_analysis_for_wordpress (lines 465 to 548): format the
    results, build the metadata and insert a blog_analyses row.  The
    two-variable unpacking of match.split(" vs ") raises unless it yields
    exactly two parts; the except handler then returns (False, None). -/
def saveAnalysisForWordpress (db : Db) (matchInfo : MatchInfo) (results : ResultsDict)
    (status : String) : (Bool × Option Nat) × Db :=
  match pySplit matchInfo.matchName " vs " with
  | [homeTeam, awayTeam] =>
    let b := dbBackend db
    let homeTeamId := getTeamIdByName b (pyStrip homeTeam)
    let awayTeamId := getTeamIdByName b (pyStrip awayTeam)
    let leagueId := getLeagueIdByName db matchInfo.league
    let matchSlug := pyReplace (pyReplace (pyLower matchInfo.matchName) " vs " "-vs-") " " "-"
    let slug := matchSlug ++ "-" ++ fmtYmd matchInfo.date ++ "-analysis"
    let title :=
      matchInfo.matchName ++ " Match Analysis and Prediction - " ++ fmtDmy matchInfo.date
    let wpContent := formatContentForWordpress matchInfo results
    let tags := [pyStrip homeTeam, pyStrip awayTeam, matchInfo.league, "Match Analysis",
                 "Football Prediction", "Betting Tips"]
    let matchId :=
      if truthyId homeTeamId && truthyId awayTeamId then
        ((db.matchRows.filter
            (fun m => decide (homeTeamId = some m.hometeam_id)
                        && decide (awayTeamId = some m.awayteam_id))).map
          (fun m => m.match_id)).head?
      else none
    let record : BlogRecord :=
      { id := db.nextId, title := title, slug := slug, content := wpContent,
        rawContent := results, home_team_id := homeTeamId, away_team_id := awayTeamId,
        league_id := leagueId, match_id := matchId, match_date := fmtYmd matchInfo.date,
        status := status, tags := tags }
    ((true, some db.nextId),
     { db with analyses := db.analyses ++ [record], nextId := db.nextId + 1 })
  | _ => ((false, none), db)

/-- Days between a match row and the requested date, as the absolute pandas
    date_diff of get_match_by_teams. -/
def dateDiff (target : Int) (m : MatchRow) : Nat :=
  (m.date - target).natAbs

/-- The matches rows get_match_by_teams retains for a resolved pair of team
    ids (the two eq filters of its query). -/
def filteredMatches (db : Db) (hid aid : Nat) : List MatchRow :=
  db.matchRows.filter
    (fun m => decide (m.hometeam_id = hid) && decide (m.awayteam_id = aid))

/-- data_service.get_match_by_teams (lines 300 to 363): resolve both team
    ids (an unresolved or Python-falsy id aborts with None), filter the
    matches rows, and when a closest_to_date is supplied sort by the
    absolute date difference and take the first row. -/
def getMatchByTeams (db : Db) (homeTeam awayTeam : String) (closestToDate : Option Int) :
    Option MatchRow :=
  let b := dbBackend db
  match getTeamIdByName b homeTeam, getTeamIdByName b awayTeam with
  | some homeTeamId, some awayTeamId =>
    if homeTeamId = 0 || awayTeamId = 0 then none
    else
      match filteredMatches db homeTeamId awayTeamId with
      | [] => none
      | r :: rs =>
        match closestToDate with
        | some target =>
          ((r :: rs).insertionSort (fun a b => dateDiff target a ≤ dateDiff target b)).head?
        | none => (r :: rs).head?
  | _, _ => none

/-! ## The news search (agents.py lines 114 to 153 and
    agent_chat_with_memory.py lines 71 to 81)

    The DuckDuckGo result sequence is a parameter; the functions format the
    results, or return their sentinel when the sequence is empty. -/

/-- One search hit, with the content scrape_article_content produced for
    its URL. -/
structure NewsItem where
  title : String
  href : String
  body : String
  full_content : String
deriving DecidableEq, Repr

/-- The per-article block of agents.search_news. -/
def searchNewsItemText (item : NewsItem) : String :=
  "Title: " ++ item.title ++ "\nURL: " ++ item.href ++ "\nSummary: " ++ item.body
    ++ "\nContent:\n" ++ item.full_content

/-- agents.search_news: scrape-and-format the results, or the sentinel for
    an empty result sequence. -/
def searchNews (results : List NewsItem) (topic : String) : String :=
  match results with
  | _ :: _ => joinSep "\n\n" (results.map searchNewsItemText)
  | [] => "No news found for \x27" ++ topic ++ " football match\x27 on the specified sites today."

/-- agent_chat_with_memory.search_news: format the results, or the sentinel
    for an empty result sequence. -/
def searchNewsMemory (results : List NewsItem) (topic : String) : String :=
  match results with
  | _ :: _ =>
    joinSep "\n\n" (results.map (fun item =>
      "Title: " ++ item.title ++ "\nURL: " ++ item.href ++ "\nSummary: " ++ item.body))
  | [] => "No news found for " ++ topic ++ "."

/-! ## The agent pipeline (agents.process_football_news, lines 300 to 371)

    Each stage is one completion call: a pure function of its textual input.
    The completion service is a parameter that may fail at any stage; the
    Python code wraps none of the calls in a handler, so a failure aborts
    the function and the local stage outputs are lost. -/

/-- The completion-backed stages of the workflow. -/
inductive Stage where
  | search
  | synthesize
  | summarize
  | elaborate
  | dbInsights
  | combine
deriving DecidableEq, Repr

/-- The elaboration-stage prompt (agents.py lines 335 to 347). -/
def elaboratePrompt (matchDetails rawNews initialAnalysis : String) : String :=
  "\n                MATCH: " ++ matchDetails
    ++ "\n                \n                Latest News:\n                " ++ rawNews
    ++ "\n                \n                INITIAL ANALYSIS:\n                " ++ initialAnalysis
    ++ "\n\n\n                Please enhance this match analysis with additional statistics, "
    ++ "betting context, \n                and deeper insights to help bettors make more "
    ++ "informed decisions.\n                "

/-- agents.process_football_news: search, synthesize, summarize and
    elaborate in sequence, then attach the directly scraped articles.  An
    error of any completion call propagates out unchanged. -/
def processFootballNews (complete : Stage → String → Except String String)
    (searchResults : List NewsItem) (matchDetails : String) : Except String ResultsDict := do
  let rawNews ← complete Stage.search ("Find recent news about " ++ matchDetails)
  let synthesizedNews ← complete Stage.synthesize
      ("Synthesize these football news articles:\n" ++ rawNews)
  let initialAnalysis ← complete Stage.summarize
      ("Summarize this football synthesis for betting context:\n" ++ synthesizedNews)
  let enhancedAnalysis ← complete Stage.elaborate
      (elaboratePrompt matchDetails rawNews initialAnalysis)
  let newsArticles := searchNews searchResults matchDetails
  pure { raw_news := some rawNews,
         scraped_content := some newsArticles,
         synthesized_news := some synthesizedNews,
         initial_analysis := some initialAnalysis,
         enhanced_analysis := some enhancedAnalysis }

/-- agents.combine_analysis_with_database (lines 495 to 522): one
    completion call over the enhanced analysis and the database insights. -/
def combineAnalysisWithDatabase (complete : Stage → String → Except String String)
    (newsAnalysis : ResultsDict) (dbInsightsText : String) : Except String String :=
  match newsAnalysis.enhanced_analysis with
  | none => Except.error "KeyError: enhanced_analysis"
  | some enhanced =>
    complete Stage.combine
      ("\n    NEWS-BASED ANALYSIS:\n    " ++ enhanced
        ++ "\n    \n    DATABASE INSIGHTS:\n    " ++ dbInsightsText
        ++ "\n    \n    Please combine these two analyses into a comprehensive report that "
        ++ "integrates news information with statistical data.\n    The report should be "
        ++ "well-structured with clear sections and maintain a focus on actionable betting "
        ++ "insights.\n    ")

/-- Python dict.update: keys present in the update win, the rest stay. -/
def mergeResults (base nr : ResultsDict) : ResultsDict :=
  { raw_news := nr.raw_news <|> base.raw_news,
    scraped_content := nr.scraped_content <|> base.scraped_content,
    synthesized_news := nr.synthesized_news <|> base.synthesized_news,
    initial_analysis := nr.initial_analysis <|> base.initial_analysis,
    enhanced_analysis := nr.enhanced_analysis <|> base.enhanced_analysis,
    db_insights := nr.db_insights <|> base.db_insights,
    combined_analysis := nr.combined_analysis <|> base.combined_analysis,
    source_type := nr.source_type <|> base.source_type,
    original_html := nr.original_html <|> base.original_html }

/-! ## app.generate_analysis_conversational (app.py lines 125 to 267)

    The request dispatcher: check the cache, and either load the stored
    record or run the database stage, the news pipeline, the combine stage,
    the store, and the chat-context assembly.  The statistics-gathering
    calls feeding process_database_insights only shape the prompt of its
    single completion call, so that whole status block is represented by
    its Except outcome. -/

/-- The results dict built from a loaded blog_analyses record (app.py lines
    142 to 148); the betting-insights extraction is omitted as noted on the
    ResultsDict model. -/
def loadedResultsOfRecord (record : BlogRecord) : ResultsDict :=
  { source_type := some "db",
    combined_analysis := some (parseWordpressAnalysis record.content),
    original_html := some record.content }

/-- The chat context assembled for a freshly generated analysis (app.py
    lines 244 to 253). -/
def appChatContext (fullQuery : String) (results : ResultsDict) : String :=
  let analysisForContext :=
    results.combined_analysis.getD (results.enhanced_analysis.getD (results.db_insights.getD ""))
  let ctx :=
    "\n            MATCH: " ++ fullQuery ++ "\n\n            ANALYSIS:\n            "
      ++ analysisForContext ++ "\n            "
  if results.db_insights.isSome && results.combined_analysis.isNone then
    ctx ++ "\n\nDATABASE INSIGHTS:\n" ++ results.db_insights.getD ""
  else ctx

/-- The caller-observable outcome of one generate_analysis_conversational
    run: whether agents.process_football_news was invoked, whether the
    outer except handler fired, the stored session results and chat
    context, and the final database state. -/
structure GenOutcome where
  pipelineInvoked : Bool
  errored : Bool
  results : Option ResultsDict
  chatContext : Option String
  finalDb : Option Db
deriving DecidableEq, Repr

/-- The fresh-analysis tail of generate_analysis_conversational (app.py
    lines 158 to 258), entered when no stored analysis was loaded. -/
def generateFreshAnalysis (dbState : Option Db) (useNews useDatabase : Bool)
    (complete : Stage → String → Except String String) (searchResults : List NewsItem)
    (dbInsightsRun : Except String String) (priorChatContext : Option String)
    (matchInfoArg : MatchInfo) (fullQuery : String) : GenOutcome :=
  let runDb := useDatabase && dbState.isSome
  match (if runDb then dbInsightsRun.map some else Except.ok none) with
  | Except.error _ =>
    { pipelineInvoked := false, errored := true, results := none,
      chatContext := priorChatContext, finalDb := dbState }
  | Except.ok dbIns =>
    let results0 : ResultsDict := { db_insights := dbIns }
    match (if useNews then (processFootballNews complete searchResults fullQuery).map some
           else Except.ok none) with
    | Except.error _ =>
      { pipelineInvoked := true, errored := true, results := none,
        chatContext := priorChatContext, finalDb := dbState }
    | Except.ok newsRes =>
      let results1 := match newsRes with
        | some nr => mergeResults results0 nr
        | none => results0
      let dbTruthy := match dbIns with
        | some s => decide (s ≠ "")
        | none => false
      let finish : ResultsDict → GenOutcome := fun results2 =>
        let finalDb : Option Db :=
          match dbState with
          | some db =>
            if dbTruthy || newsRes.isSome then
              some (saveAnalysisForWordpress db matchInfoArg results2 "draft").2
            else some db
          | none => none
        { pipelineInvoked := newsRes.isSome, errored := false,
          results := some results2,
          chatContext := some (appChatContext fullQuery results2),
          finalDb := finalDb }
      match newsRes with
      | some nr =>
        if dbTruthy then
          match combineAnalysisWithDatabase complete nr (dbIns.getD "") with
          | Except.error _ =>
            { pipelineInvoked := true, errored := true, results := none,
              chatContext := priorChatContext, finalDb := dbState }
          | Except.ok combined =>
            finish { results1 with combined_analysis := some combined }
        else
          finish { results1 with
            combined_analysis :=
              some (nr.enhanced_analysis.getD (nr.initial_analysis.getD "No analysis generated.")) }
      | none =>
        if dbTruthy then
          finish { results1 with
            combined_analysis := dbIns,
            enhanced_analysis := dbIns,
            initial_analysis := some "Analysis based on database statistics only.",
            synthesized_news := some "No news analysis performed.",
            raw_news := some "No news search performed." }
        else
          finish results1

/-- app.generate_analysis_conversational: load the stored analysis when the
    cache-existence check finds one, otherwise run the fresh-analysis
    tail. -/
def generateAnalysisConversational (dbState : Option Db) (useNews useDatabase : Bool)
    (complete : Stage → String → Except String String) (searchResults : List NewsItem)
    (dbInsightsRun : Except String String) (priorChatContext : Option String)
    (homeTeam awayTeam league : String) (matchDate : Date) : GenOutcome :=
  let matchDetails := homeTeam ++ " vs " ++ awayTeam
  let leagueDisplay := if league = "" then "Unknown League" else league
  let fullQuery := matchDetails ++ " " ++ leagueDisplay ++ " " ++ fmtDmy matchDate
  let loaded : Option BlogRecord :=
    match dbState with
    | none => none
    | some db =>
      match checkAnalysisExists (dbBackend db) homeTeam awayTeam matchDate with
      | (true, analysisId) => getAnalysisById db analysisId
      | (false, _) => none
  match loaded with
  | some record =>
    { pipelineInvoked := false, errored := false,
      results := some (loadedResultsOfRecord record),
      chatContext := priorChatContext,
      finalDb := dbState }
  | none =>
    generateFreshAnalysis dbState useNews useDatabase complete searchResults dbInsightsRun
      priorChatContext ⟨matchDetails, leagueDisplay, matchDate⟩ fullQuery

/-! ## The memory write after a Memory-Enhanced chat turn

    data_service.save_chat_to_memory serializes a (question, answer) entry
    and adds it to the store under the current user_id.  app.py guards the
    call (lines 876 to 882); the near-duplicate branch kept in agents.py
    (lines 1290 to 1299) calls it unconditionally. -/

/-- A stored memory entry; the user_id field records the scope the entry
    was added under, and the wall-clock timestamp is omitted. -/
structure MemoryRecord where
  user_id : String
  query : String
  response : String
  matchName : String
  league : String
  date : String
deriving DecidableEq, Repr

/-- data_service.save_chat_to_memory (lines 125 to 146): the record added
    to the memory store for a chat interaction. -/
def saveChatToMemory (userId : String) (matchInfo : MatchInfo) (query response : String) :
    MemoryRecord :=
  { user_id := userId, query := query, response := response,
    matchName := matchInfo.matchName, league := matchInfo.league,
    date := fmtYmd matchInfo.date }

/-- The memory write of the Memory-Enhanced branch of app.py (lines 876 to
    882): written only when memory is initialized and the user is not the
    reserved default user. -/
def appMemoryWriteAfterAnswer (memoryAvailable : Bool) (userId : String)
    (matchInfo : MatchInfo) (prompt response : String) : Option MemoryRecord :=
  if memoryAvailable && userId ≠ "default_user" then
    some (saveChatToMemory userId matchInfo prompt response)
  else none

/-- The memory write of the Memory-Enhanced branch kept in agents.py (lines
    1290 to 1299): performed unconditionally once the branch is taken. -/
def appCopyMemoryWriteAfterAnswer (userId : String) (matchInfo : MatchInfo)
    (prompt response : String) : Option MemoryRecord :=
  some (saveChatToMemory userId matchInfo prompt response)

/-! ## Queries as the callers build them -/

/-- The identifying tuple of one analysis request. -/
structure MatchQuery where
  home : String
  away : String
  league : String
  date : Date
deriving DecidableEq, Repr

/-- The cache-existence check as every caller invokes it: home team, away
    team and date are passed, the league never is. -/
def analysisCacheExists (b : Backend) (q : MatchQuery) : Bool × Option Nat :=
  checkAnalysisExists b q.home q.away q.date

/-! # Theorems -/

/-! ## Claim C1 -/

/-- Claim C1 counterexample: for the results dict that carries only
    db_insights (no combined or enhanced analysis), the chat-context
    builder selects the empty default string, not db_insights as the
    claimed priority order requires. -/
theorem c1_counterexample :
    ({ db_insights := some "DB stats only" } : ResultsDict).combined_analysis = none
    ∧ ({ db_insights := some "DB stats only" } : ResultsDict).enhanced_analysis = none
    ∧ setupChatAnalysisForContext { db_insights := some "DB stats only" } ≠ "DB stats only" := by
  refine ⟨rfl, rfl, ?_⟩
  decide

/-- Claim C1 (amended): the chat-context builder selects combined_analysis
    when present and otherwise enhanced_analysis with an empty-string
    default, never db_insights, initial_analysis or raw_news; the four-way
    priority combined, enhanced, db_insights, initial is implemented by the
    WordPress content formatter instead.  Neither selection depends on
    raw_news. -/
theorem c1_selection_priority (r : ResultsDict) (x : Option String) :
    setupChatAnalysisForContext r = r.combined_analysis.getD (r.enhanced_analysis.getD "")
    ∧ formatMainAnalysis r
        = r.combined_analysis.getD
            (r.enhanced_analysis.getD
              (r.db_insights.getD (r.initial_analysis.getD "Analysis not available.")))
    ∧ setupChatAnalysisForContext { r with raw_news := x } = setupChatAnalysisForContext r
    ∧ formatMainAnalysis { r with raw_news := x } = formatMainAnalysis r := by
  obtain ⟨raw, sc, syn, ini, enh, db, comb, src, oh⟩ := r
  refine ⟨?_, ?_, ?_, ?_⟩ <;>
    simp only [setupChatAnalysisForContext, formatMainAnalysis] <;>
    cases comb <;> cases enh <;> cases db <;> cases ini <;> rfl

/-! ## Monadic reduction helpers for the Except pipeline -/

/-- Bind on a successful Except step. -/
theorem exceptBindOk {α β ε : Type} (a : α) (f : α → Except ε β) :
    (Except.ok a >>= f) = f a := rfl

/-- Bind on a failed Except step. -/
theorem exceptBindErr {α β ε : Type} (e : ε) (f : α → Except ε β) :
    ((Except.error e : Except ε α) >>= f) = Except.error e := rfl

/-- Map over a successful Except value. -/
theorem exceptMapOk {α β ε : Type} (a : α) (f : α → β) :
    (f <$> (Except.ok a : Except ε α)) = Except.ok (f a) := rfl

/-- Map over a failed Except value. -/
theorem exceptMapErr {α β ε : Type} (e : ε) (f : α → β) :
    (f <$> (Except.error e : Except ε α)) = Except.error e := rfl

/-- Pure in the Except monad. -/
theorem exceptPureEq {α ε : Type} (a : α) : (pure a : Except ε α) = Except.ok a := rfl

/-! ## Claim C3 -/

/-- Claim C3 counterexample: a run whose synthesize completion (stage 2)
    fails and a run whose summarize completion (stage 3) fails hand the
    caller the identical value, so the identity of the failed stage is not
    reported; and that value is the bare error string, which carries none of
    the stage outputs (here "stage output") already computed. -/
theorem c3_counterexample :
    processFootballNews
        (fun s _ => if s = Stage.synthesize then Except.error "completion failed"
                    else Except.ok "stage output")
        [] "Arsenal vs Chelsea"
      = Except.error "completion failed"
    ∧ processFootballNews
        (fun s _ => if s = Stage.summarize then Except.error "completion failed"
                    else Except.ok "stage output")
        [] "Arsenal vs Chelsea"
      = Except.error "completion failed" := by
  exact ⟨rfl, rfl⟩

/-- Claim C3 (amended): when the summarize completion (stage 3) fails,
    process_football_news aborts and propagates the completion error value
    itself, unchanged, to the caller: the result is the bare error, with no
    stage identity attached and without the already computed raw_news and
    synthesized_news outputs, which are discarded with the aborted call. -/
theorem c3_stage_failure_propagates
    (complete : Stage → String → Except String String)
    (searchResults : List NewsItem) (matchDetails rawNews synthesizedNews e : String)
    (h1 : complete Stage.search ("Find recent news about " ++ matchDetails)
            = Except.ok rawNews)
    (h2 : complete Stage.synthesize ("Synthesize these football news articles:\n" ++ rawNews)
            = Except.ok synthesizedNews)
    (h3 : complete Stage.summarize
            ("Summarize this football synthesis for betting context:\n" ++ synthesizedNews)
            = Except.error e) :
    processFootballNews complete searchResults matchDetails = Except.error e := by
  simp only [processFootballNews, h1, h2, h3, exceptBindOk, exceptBindErr]

/-- Witness for the amended claim C3 at a concrete completion service that
    fails exactly at the summarize stage. -/
theorem c3_stage_failure_propagates_witness :
    processFootballNews
        (fun s _ => if s = Stage.summarize then Except.error "boom" else Except.ok "out")
        [] "Arsenal vs Chelsea"
      = Except.error "boom" :=
  c3_stage_failure_propagates
    (fun s _ => if s = Stage.summarize then Except.error "boom" else Except.ok "out")
    [] "Arsenal vs Chelsea" "out" "out" "boom" rfl rfl rfl

/-! ## Claim C4 -/

/-- Claim C4: an empty search-result sequence makes both search_news
    variants return their deterministic no-news-found sentinel mentioning
    the topic, not an error; and the pipeline does not inspect the search
    text, so with every completion succeeding the run still completes all
    remaining stages. -/
theorem c4_empty_search_sentinel (topic : String)
    (complete : Stage → String → Except String String)
    (h : ∀ s p, ∃ v, complete s p = Except.ok v) :
    searchNews [] topic
        = "No news found for \x27" ++ topic
            ++ " football match\x27 on the specified sites today."
    ∧ searchNewsMemory [] topic = "No news found for " ++ topic ++ "."
    ∧ ∃ res : ResultsDict,
        processFootballNews complete [] topic = Except.ok res
        ∧ res.scraped_content = some (searchNews [] topic)
        ∧ res.raw_news.isSome ∧ res.synthesized_news.isSome
        ∧ res.initial_analysis.isSome ∧ res.enhanced_analysis.isSome := by
  obtain ⟨rawNews, h1⟩ := h Stage.search ("Find recent news about " ++ topic)
  obtain ⟨synthesizedNews, h2⟩ :=
    h Stage.synthesize ("Synthesize these football news articles:\n" ++ rawNews)
  obtain ⟨initialAnalysis, h3⟩ :=
    h Stage.summarize ("Summarize this football synthesis for betting context:\n"
                         ++ synthesizedNews)
  obtain ⟨enhancedAnalysis, h4⟩ :=
    h Stage.elaborate (elaboratePrompt topic rawNews initialAnalysis)
  have hrun : processFootballNews complete [] topic
      = Except.ok
          { raw_news := some rawNews,
            scraped_content := some (searchNews [] topic),
            synthesized_news := some synthesizedNews,
            initial_analysis := some initialAnalysis,
            enhanced_analysis := some enhancedAnalysis } := by
    simp only [processFootballNews, h1, h2, h3, h4, exceptBindOk, exceptMapOk, exceptPureEq]
  exact ⟨rfl, rfl, _, hrun, rfl, rfl, rfl, rfl, rfl⟩

/-- Witness for claim C4 at a concrete topic and an always-succeeding
    completion service. -/
theorem c4_empty_search_sentinel_witness :
    searchNews [] "Arsenal vs Chelsea"
        = "No news found for \x27" ++ "Arsenal vs Chelsea"
            ++ " football match\x27 on the specified sites today."
    ∧ searchNewsMemory [] "Arsenal vs Chelsea"
        = "No news found for " ++ "Arsenal vs Chelsea" ++ "."
    ∧ ∃ res : ResultsDict,
        processFootballNews (fun _ _ => Except.ok "text") [] "Arsenal vs Chelsea"
            = Except.ok res
        ∧ res.scraped_content = some (searchNews [] "Arsenal vs Chelsea")
        ∧ res.raw_news.isSome ∧ res.synthesized_news.isSome
        ∧ res.initial_analysis.isSome ∧ res.enhanced_analysis.isSome :=
  c4_empty_search_sentinel "Arsenal vs Chelsea" (fun _ _ => Except.ok "text")
    (fun _ _ => ⟨"text", rfl⟩)

/-! ## Claim C5 -/

/-- A character list without an opening angle bracket is one whole text
    span. -/
theorem textSpan_of_not_mem (cs : List Char) (h : '<' ∉ cs) : textSpan cs = (cs, []) := by
  induction cs with
  | nil => rfl
  | cons c cs ih =>
    have hc : ¬ c = '<' := fun hceq => h (hceq ▸ List.mem_cons_self c cs)
    have hcs : '<' ∉ cs := fun hm => h (List.mem_cons_of_mem c hm)
    simp only [textSpan, if_neg hc, ih hcs]

/-- Tokenizing the empty input yields no tokens at any fuel. -/
theorem tokenize_nil (fuel : Nat) : tokenize fuel [] = [] := by
  cases fuel <;> rfl

/-- Tokenizing tag-free input yields at most one text token. -/
theorem tokenize_of_not_mem (fuel : Nat) (cs : List Char) (h : '<' ∉ cs) (hne : cs ≠ []) :
    tokenize (fuel + 1) cs = [Tok.text cs] := by
  match cs with
  | [] => exact absurd rfl hne
  | c :: cs' =>
    have hc : ¬ c = '<' := fun hceq => h (hceq ▸ List.mem_cons_self c cs')
    simp only [tokenize, if_neg hc, textSpan_of_not_mem (c :: cs') h, tokenize_nil]

/-- Claim C5 counterexample: stripping the already-plain string "hello" is
    not a no-op (the text survives inside no h1, h2, p or div element, so
    the result is empty), and the strip is not idempotent: stripping
    "<p>hi</p>" gives the plain "hi" paragraph, whose second strip erases
    it. -/
theorem c5_counterexample :
    parseWordpressAnalysis "hello" ≠ "hello"
    ∧ parseWordpressAnalysis (parseWordpressAnalysis "<p>hi</p>")
        ≠ parseWordpressAnalysis "<p>hi</p>" := by
  constructor <;> decide

/-- Claim C5 (amended): applying the markup-stripping step to text that is
    already plain (no angle-bracket markup at all) is not a no-op but an
    erasure: the text parses to bare text nodes, the h1/h2/p/div walk finds
    no element, and the result is the empty string.  Only inputs whose
    stripped form is empty are fixed points, so strip(strip(x)) = strip(x)
    fails whenever strip(x) is non-empty plain text. -/
theorem c5_strip_plain_erases (s : String) (h : '<' ∉ s.toList) :
    parseWordpressAnalysis s = "" := by
  unfold parseWordpressAnalysis
  by_cases hs : s.toList = []
  · rw [hs, tokenize_nil]
    rfl
  · rw [show s.length = s.toList.length from rfl]
    rw [tokenize_of_not_mem s.toList.length s.toList h hs]
    rfl

/-- Witness for the amended claim C5 at the plain string "hello". -/
theorem c5_strip_plain_erases_witness : parseWordpressAnalysis "hello" = "" :=
  c5_strip_plain_erases "hello" (by decide)

/-! ## Claim C7 -/

/-- Claim C7: the cache-existence check keys only on the normalized home
    team, away team and date; the league of the request is never consulted,
    so two queries that differ only in league resolve identically. -/
theorem c7_league_not_in_key (b : Backend) (q1 q2 : MatchQuery)
    (hh : q1.home = q2.home) (ha : q1.away = q2.away) (hd : q1.date = q2.date) :
    analysisCacheExists b q1 = analysisCacheExists b q2 := by
  unfold analysisCacheExists
  rw [hh, ha, hd]

/-- Witness for claim C7: the same teams and date under two different
    leagues give the same cache answer against a concrete backend. -/
theorem c7_league_not_in_key_witness :
    analysisCacheExists
        (dbBackend ⟨[⟨1, "Arsenal", "Arsenal FC"⟩, ⟨2, "Chelsea", "Chelsea FC"⟩], [], [],
          [⟨42, "t", "s", "<p>x</p>", {}, some 1, some 2, none, none, "2024-05-01", "draft", []⟩],
          43⟩)
        ⟨"Arsenal", "Chelsea", "Premier League", ⟨2024, 5, 1⟩⟩
      = analysisCacheExists
          (dbBackend ⟨[⟨1, "Arsenal", "Arsenal FC"⟩, ⟨2, "Chelsea", "Chelsea FC"⟩], [], [],
            [⟨42, "t", "s", "<p>x</p>", {}, some 1, some 2, none, none, "2024-05-01", "draft", []⟩],
            43⟩)
          ⟨"Arsenal", "Chelsea", "La Liga", ⟨2024, 5, 1⟩⟩ :=
  c7_league_not_in_key _ _ _ rfl rfl rfl

/-! ## Claim C8 -/

/-- Claim C8 counterexample: the Memory-Enhanced branch kept in agents.py
    writes a memory record even for user_id "default_user", scoped to
    "default_user". -/
theorem c8_counterexample :
    appCopyMemoryWriteAfterAnswer "default_user"
        ⟨"Arsenal vs Chelsea", "Premier League", ⟨2024, 5, 1⟩⟩ "Who wins?" "Arsenal, narrowly."
      = some ⟨"default_user", "Who wins?", "Arsenal, narrowly.", "Arsenal vs Chelsea",
              "Premier League", "2024-05-01"⟩ := by
  decide

/-- Claim C8 (amended): in the Memory-Enhanced branch of app.py the record
    for the (question, answer) pair is written, scoped to the current
    user_id, exactly when memory is initialized and user_id is not the
    reserved "default_user", for which the write is skipped; the
    near-duplicate branch kept in agents.py performs the write
    unconditionally, "default_user" included. -/
theorem c8_memory_write_guard (memoryAvailable : Bool) (userId : String)
    (matchInfo : MatchInfo) (prompt response : String) :
    (userId ≠ "default_user" →
      appMemoryWriteAfterAnswer true userId matchInfo prompt response
          = some (saveChatToMemory userId matchInfo prompt response)
        ∧ (saveChatToMemory userId matchInfo prompt response).user_id = userId)
    ∧ appMemoryWriteAfterAnswer memoryAvailable "default_user" matchInfo prompt response = none
    ∧ appCopyMemoryWriteAfterAnswer userId matchInfo prompt response
        = some (saveChatToMemory userId matchInfo prompt response) := by
  refine ⟨fun hne => ⟨?_, rfl⟩, ?_, rfl⟩
  · simp [appMemoryWriteAfterAnswer, hne]
  · simp [appMemoryWriteAfterAnswer]

/-- Witness for the amended claim C8 at a non-default user. -/
theorem c8_memory_write_guard_witness :
    appMemoryWriteAfterAnswer true "alice"
        ⟨"Arsenal vs Chelsea", "Premier League", ⟨2024, 5, 1⟩⟩ "Who wins?" "Arsenal."
      = some (saveChatToMemory "alice"
          ⟨"Arsenal vs Chelsea", "Premier League", ⟨2024, 5, 1⟩⟩ "Who wins?" "Arsenal.")
    ∧ (saveChatToMemory "alice"
          ⟨"Arsenal vs Chelsea", "Premier League", ⟨2024, 5, 1⟩⟩ "Who wins?" "Arsenal.").user_id
        = "alice" :=
  (c8_memory_write_guard true "alice" ⟨"Arsenal vs Chelsea", "Premier League", ⟨2024, 5, 1⟩⟩
      "Who wins?" "Arsenal.").1 (by decide)

/-! ## Claim C9 -/

/-- Claim C9: when the backend query behind the cache-existence check
    raises, the except handler reports a plain cache miss: the check
    returns (False, None) and, being a total function into its result pair,
    propagates nothing to the caller. -/
theorem c9_exists_swallows_errors (b : Backend) (homeTeam awayTeam : String)
    (matchDate : Date) (e : String)
    (h : b.analysisIdsByKey (getTeamIdByName b homeTeam) (getTeamIdByName b awayTeam)
           (fmtYmd matchDate) = Except.error e) :
    checkAnalysisExists b homeTeam awayTeam matchDate = (false, none) := by
  simp only [checkAnalysisExists, h]

/-- Witness for claim C9 against a backend whose storage is unreachable. -/
theorem c9_exists_swallows_errors_witness :
    checkAnalysisExists
        ⟨fun _ => Except.error "storage unreachable", fun _ => Except.error "storage unreachable",
         fun _ _ _ => Except.error "storage unreachable"⟩
        "Arsenal" "Chelsea" ⟨2024, 5, 1⟩
      = (false, none) :=
  c9_exists_swallows_errors _ "Arsenal" "Chelsea" ⟨2024, 5, 1⟩ "storage unreachable" rfl

/-! ## Claim C2 -/

/-- Claim C2 counterexample: with a stored analysis for the query (the
    existence check returns (True, 42)), generate_analysis_conversational
    does skip the pipeline and builds the results from the loaded record,
    but it builds no chat context from that record: the session chat
    context keeps its prior value, here none at all. -/
theorem c2_counterexample :
    (generateAnalysisConversational
        (some ⟨[⟨1, "Arsenal", "Arsenal FC"⟩, ⟨2, "Chelsea", "Chelsea FC"⟩], [], [],
          [⟨42, "t", "s", "<p>Stored analysis.</p>", {}, some 1, some 2, none, none,
            "2024-05-01", "draft", []⟩], 43⟩)
        true true (fun _ _ => Except.ok "out") [] (Except.ok "insights") none
        "Arsenal" "Chelsea" "Premier League" ⟨2024, 5, 1⟩).pipelineInvoked = false
    ∧ (generateAnalysisConversational
        (some ⟨[⟨1, "Arsenal", "Arsenal FC"⟩, ⟨2, "Chelsea", "Chelsea FC"⟩], [], [],
          [⟨42, "t", "s", "<p>Stored analysis.</p>", {}, some 1, some 2, none, none,
            "2024-05-01", "draft", []⟩], 43⟩)
        true true (fun _ _ => Except.ok "out") [] (Except.ok "insights") none
        "Arsenal" "Chelsea" "Premier League" ⟨2024, 5, 1⟩).results.isSome = true
    ∧ (generateAnalysisConversational
        (some ⟨[⟨1, "Arsenal", "Arsenal FC"⟩, ⟨2, "Chelsea", "Chelsea FC"⟩], [], [],
          [⟨42, "t", "s", "<p>Stored analysis.</p>", {}, some 1, some 2, none, none,
            "2024-05-01", "draft", []⟩], 43⟩)
        true true (fun _ _ => Except.ok "out") [] (Except.ok "insights") none
        "Arsenal" "Chelsea" "Premier League" ⟨2024, 5, 1⟩).chatContext = none := by
  refine ⟨?_, ?_, ?_⟩ <;> decide

/-- Claim C2 (amended): whenever the cache-existence check answers
    (True, id) and the record with that id loads, the run never invokes the
    news pipeline, does not error, stores results built directly from the
    loaded record (the parsed content as combined_analysis, the stored HTML
    as original_html), leaves the database untouched and leaves the chat
    context at its prior value instead of rebuilding it from the record. -/
theorem c2_cache_hit_skips_pipeline (db : Db) (useNews useDatabase : Bool)
    (complete : Stage → String → Except String String) (searchResults : List NewsItem)
    (dbInsightsRun : Except String String) (priorChatContext : Option String)
    (homeTeam awayTeam league : String) (matchDate : Date) (i : Nat) (record : BlogRecord)
    (hexists : checkAnalysisExists (dbBackend db) homeTeam awayTeam matchDate = (true, some i))
    (hload : getAnalysisById db (some i) = some record) :
    generateAnalysisConversational (some db) useNews useDatabase complete searchResults
        dbInsightsRun priorChatContext homeTeam awayTeam league matchDate
      = { pipelineInvoked := false, errored := false,
          results := some (loadedResultsOfRecord record),
          chatContext := priorChatContext, finalDb := some db } := by
  unfold generateAnalysisConversational
  simp only [hexists, hload]

/-- Witness for the amended claim C2 at a concrete database holding record
    42 for the query. -/
theorem c2_cache_hit_skips_pipeline_witness :
    generateAnalysisConversational
        (some ⟨[⟨1, "Arsenal", "Arsenal FC"⟩, ⟨2, "Chelsea", "Chelsea FC"⟩], [], [],
          [⟨42, "t", "s", "<p>Stored analysis.</p>", {}, some 1, some 2, none, none,
            "2024-05-01", "draft", []⟩], 43⟩)
        true true (fun _ _ => Except.ok "out") [] (Except.ok "insights") (some "prior context")
        "Arsenal" "Chelsea" "Premier League" ⟨2024, 5, 1⟩
      = { pipelineInvoked := false, errored := false,
          results := some (loadedResultsOfRecord
            ⟨42, "t", "s", "<p>Stored analysis.</p>", {}, some 1, some 2, none, none,
              "2024-05-01", "draft", []⟩),
          chatContext := some "prior context",
          finalDb := some ⟨[⟨1, "Arsenal", "Arsenal FC"⟩, ⟨2, "Chelsea", "Chelsea FC"⟩], [], [],
            [⟨42, "t", "s", "<p>Stored analysis.</p>", {}, some 1, some 2, none, none,
              "2024-05-01", "draft", []⟩], 43⟩ } :=
  c2_cache_hit_skips_pipeline
    ⟨[⟨1, "Arsenal", "Arsenal FC"⟩, ⟨2, "Chelsea", "Chelsea FC"⟩], [], [],
      [⟨42, "t", "s", "<p>Stored analysis.</p>", {}, some 1, some 2, none, none,
        "2024-05-01", "draft", []⟩], 43⟩
    true true (fun _ _ => Except.ok "out") [] (Except.ok "insights") (some "prior context")
    "Arsenal" "Chelsea" "Premier League" ⟨2024, 5, 1⟩ 42
    ⟨42, "t", "s", "<p>Stored analysis.</p>", {}, some 1, some 2, none, none,
      "2024-05-01", "draft", []⟩
    (by decide) (by decide)

/-! ## Claim C10 -/

/-- The head of a list insertion-sorted by a numeric key is a member with
    minimal key. -/
theorem insertionSortHeadMin (key : MatchRow → Nat) (l : List MatchRow) (m : MatchRow)
    (hhead : (l.insertionSort (fun a b => key a ≤ key b)).head? = some m) :
    m ∈ l ∧ ∀ x ∈ l, key m ≤ key x := by
  haveI : IsTotal MatchRow (fun a b => key a ≤ key b) :=
    ⟨fun a b => Nat.le_total (key a) (key b)⟩
  haveI : IsTrans MatchRow (fun a b => key a ≤ key b) :=
    ⟨fun _ _ _ hab hbc => Nat.le_trans hab hbc⟩
  have hperm := List.perm_insertionSort (fun a b => key a ≤ key b) l
  have hsorted := List.sorted_insertionSort (fun a b => key a ≤ key b) l
  cases hs : l.insertionSort (fun a b => key a ≤ key b) with
  | nil => rw [hs] at hhead; cases hhead
  | cons m0 t =>
    rw [hs] at hhead hperm hsorted
    have hm : m0 = m := Option.some.inj hhead
    subst hm
    refine ⟨hperm.mem_iff.mp (List.mem_cons_self m0 t), fun x hx => ?_⟩
    rcases List.mem_cons.mp (hperm.mem_iff.mpr hx) with h | h
    · subst h; exact Nat.le_refl _
    · exact List.rel_of_sorted_cons hsorted x h

/-- Claim C10: with a closest_to_date given and both team names resolving
    to usable ids, get_match_by_teams returns a stored match of that home
    and away pairing whose date is at minimal absolute distance from the
    requested date. -/
theorem c10_closest_match (db : Db) (homeTeam awayTeam : String) (target : Int)
    (hid aid : Nat)
    (hh : getTeamIdByName (dbBackend db) homeTeam = some hid) (hh0 : hid ≠ 0)
    (ha : getTeamIdByName (dbBackend db) awayTeam = some aid) (ha0 : aid ≠ 0)
    (hne : filteredMatches db hid aid ≠ []) :
    ∃ m, getMatchByTeams db homeTeam awayTeam (some target) = some m
      ∧ m ∈ db.matchRows ∧ m.hometeam_id = hid ∧ m.awayteam_id = aid
      ∧ ∀ m' ∈ db.matchRows, m'.hometeam_id = hid → m'.awayteam_id = aid →
          dateDiff target m ≤ dateDiff target m' := by
  rcases hrow : filteredMatches db hid aid with _ | ⟨r0, rs⟩
  · exact absurd hrow hne
  · have hlen : ((r0 :: rs).insertionSort
        (fun a b => dateDiff target a ≤ dateDiff target b)).length = (r0 :: rs).length :=
      List.length_insertionSort _ _
    rcases hs : (r0 :: rs).insertionSort (fun a b => dateDiff target a ≤ dateDiff target b)
      with _ | ⟨m, t⟩
    · rw [hs] at hlen; simp at hlen
    · have hhead : ((r0 :: rs).insertionSort
          (fun a b => dateDiff target a ≤ dateDiff target b)).head? = some m := by
        rw [hs]; rfl
      have hmin := insertionSortHeadMin (dateDiff target) (r0 :: rs) m hhead
      have hmfilter : m ∈ filteredMatches db hid aid := hrow ▸ hmin.1
      have hmfilter' := List.mem_filter.mp hmfilter
      have hids : m.hometeam_id = hid ∧ m.awayteam_id = aid := by
        have := hmfilter'.2
        simpa using this
      refine ⟨m, ?_, hmfilter'.1, hids.1, hids.2, fun m' hm' hh' ha' => ?_⟩
      · simp only [getMatchByTeams, hh, ha, hrow]
        have hcond : (hid = 0 || aid = 0) = false := by simp [hh0, ha0]
        rw [hcond]
        simp only [Bool.false_eq_true, if_false]
        rw [hs]
        rfl
      · have hm'filter : m' ∈ filteredMatches db hid aid := by
          apply List.mem_filter.mpr
          constructor
          · exact hm'
          · simp [hh', ha']
        exact hmin.2 m' (hrow ▸ hm'filter)

/-- Witness for claim C10: among the stored Arsenal vs Chelsea matches on
    days 100 and 120, the query closest to day 104 returns the day-100
    match. -/
theorem c10_closest_match_witness :
    ∃ m, getMatchByTeams
          ⟨[⟨1, "Arsenal", "Arsenal FC"⟩, ⟨2, "Chelsea", "Chelsea FC"⟩], [],
            [⟨10, 1, 2, 100⟩, ⟨11, 1, 2, 120⟩, ⟨12, 2, 1, 105⟩], [], 0⟩
          "Arsenal" "Chelsea" (some 104) = some m
      ∧ m ∈ ([⟨10, 1, 2, 100⟩, ⟨11, 1, 2, 120⟩, ⟨12, 2, 1, 105⟩] : List MatchRow)
      ∧ m.hometeam_id = 1 ∧ m.awayteam_id = 2
      ∧ ∀ m' ∈ ([⟨10, 1, 2, 100⟩, ⟨11, 1, 2, 120⟩, ⟨12, 2, 1, 105⟩] : List MatchRow),
          m'.hometeam_id = 1 → m'.awayteam_id = 2 →
            dateDiff 104 m ≤ dateDiff 104 m' :=
  c10_closest_match
    ⟨[⟨1, "Arsenal", "Arsenal FC"⟩, ⟨2, "Chelsea", "Chelsea FC"⟩], [],
      [⟨10, 1, 2, 100⟩, ⟨11, 1, 2, 120⟩, ⟨12, 2, 1, 105⟩], [], 0⟩
    "Arsenal" "Chelsea" 104 1 2 (by decide) (by decide) (by decide) (by decide) (by decide)

/-! ## Claim C6 -/

/-- String append distributes over the character data. -/
theorem strDataAppend (a b : String) : (a ++ b).data = a.data ++ b.data := by
  rcases a with ⟨la⟩
  rcases b with ⟨lb⟩
  rfl

/-- Inserting a blog record leaves team-id resolution untouched. -/
theorem teamIdUpdate (db : Db) (analysesNew : List BlogRecord) (n : Nat) (s : String) :
    getTeamIdByName (dbBackend { db with analyses := analysesNew, nextId := n }) s
      = getTeamIdByName (dbBackend db) s := rfl

/-- The key query of the existence check over an updated analyses table. -/
theorem analysisIdsUpdate (db : Db) (analysesNew : List BlogRecord) (n : Nat)
    (h a : Nat) (ds : String) :
    (dbBackend { db with analyses := analysesNew, nextId := n }).analysisIdsByKey
        (some h) (some a) ds
      = Except.ok (((analysesNew.filter
            (fun rec => rec.home_team_id = some h && rec.away_team_id = some a
                && rec.match_date = ds)).map (fun rec => rec.id)).take 1) := rfl

/-- Loading by id over an updated analyses table. -/
theorem getAnalysisByIdUpdate (db : Db) (analysesNew : List BlogRecord) (n : Nat) (i : Nat) :
    getAnalysisById { db with analyses := analysesNew, nextId := n } (some i)
      = (analysesNew.filter (fun rec => rec.id = i)).head? := rfl

/-- Claim C6: storing the results for a query with resolvable team names
    into a store holding no record under that key, then following the
    existence check and loading the record it finds, yields an analysis
    whose canonical text is exactly the markup round-trip (format to
    WordPress HTML, then strip back to plain text) of the stored results;
    and the formatted HTML embeds the markup conversion of the canonical
    analysis text chosen from the results by the four-way priority. -/
theorem c6_store_load_roundtrip (db : Db) (q : MatchQuery) (r : ResultsDict) (hid aid : Nat)
    (hsplit : pySplit (q.home ++ " vs " ++ q.away) " vs " = [q.home, q.away])
    (hstripH : pyStrip q.home = q.home) (hstripA : pyStrip q.away = q.away)
    (hhid : getTeamIdByName (dbBackend db) q.home = some hid)
    (haid : getTeamIdByName (dbBackend db) q.away = some aid)
    (hfresh : ∀ rec ∈ db.analyses,
        ¬(rec.home_team_id = some hid ∧ rec.away_team_id = some aid
            ∧ rec.match_date = fmtYmd q.date))
    (hidfresh : ∀ rec ∈ db.analyses, rec.id ≠ db.nextId) :
    (saveAnalysisForWordpress db ⟨q.home ++ " vs " ++ q.away, q.league, q.date⟩ r "draft").1
        = (true, some db.nextId)
    ∧ checkAnalysisExists
        (dbBackend
          (saveAnalysisForWordpress db ⟨q.home ++ " vs " ++ q.away, q.league, q.date⟩ r
              "draft").2)
        q.home q.away q.date
      = (true, some db.nextId)
    ∧ (∃ rec,
        getAnalysisById
            (saveAnalysisForWordpress db ⟨q.home ++ " vs " ++ q.away, q.league, q.date⟩ r
                "draft").2
            (some db.nextId) = some rec
        ∧ rec.content
            = formatContentForWordpress ⟨q.home ++ " vs " ++ q.away, q.league, q.date⟩ r
        ∧ (loadedResultsOfRecord rec).combined_analysis
            = some (parseWordpressAnalysis
                (formatContentForWordpress ⟨q.home ++ " vs " ++ q.away, q.league, q.date⟩ r)))
    ∧ (∃ pre post,
        (formatContentForWordpress ⟨q.home ++ " vs " ++ q.away, q.league, q.date⟩ r).data
          = pre ++ (mainAnalysisHtml (formatMainAnalysis r)).data ++ post) := by
  have hnil : db.analyses.filter
      (fun rec => rec.home_team_id = some hid && rec.away_team_id = some aid
          && rec.match_date = fmtYmd q.date) = [] := by
    rw [List.filter_eq_nil_iff]
    intro a ha
    have := hfresh a ha
    simp only [Bool.and_eq_true, decide_eq_true_eq]
    tauto
  have hidnil : db.analyses.filter (fun rec => rec.id = db.nextId) = [] := by
    rw [List.filter_eq_nil_iff]
    intro a ha
    have := hidfresh a ha
    simp [this]
  refine ⟨?_, ?_, ?_, ?_⟩
  · simp only [saveAnalysisForWordpress, hsplit, hstripH, hstripA, hhid, haid]
  · simp only [saveAnalysisForWordpress, hsplit, hstripH, hstripA, hhid, haid]
    simp only [checkAnalysisExists, teamIdUpdate, hhid, haid, analysisIdsUpdate,
      List.filter_append, hnil, List.nil_append, List.filter_cons, List.filter_nil,
      decide_eq_true_eq]
    simp
  · simp only [saveAnalysisForWordpress, hsplit, hstripH, hstripA, hhid, haid]
    refine ⟨{ id := db.nextId,
              title := q.home ++ " vs " ++ q.away ++ " Match Analysis and Prediction - "
                ++ fmtDmy q.date,
              slug := pyReplace (pyReplace (pyLower (q.home ++ " vs " ++ q.away)) " vs " "-vs-")
                  " " "-" ++ "-" ++ fmtYmd q.date ++ "-analysis",
              content := formatContentForWordpress
                ⟨q.home ++ " vs " ++ q.away, q.league, q.date⟩ r,
              rawContent := r, home_team_id := some hid, away_team_id := some aid,
              league_id := getLeagueIdByName db q.league,
              match_id :=
                if (truthyId (some hid) && truthyId (some aid)) = true then
                  (List.map (fun m => m.match_id)
                    (List.filter
                      (fun m => decide (some hid = some m.hometeam_id)
                          && decide (some aid = some m.awayteam_id)) db.matchRows)).head?
                else none,
              match_date := fmtYmd q.date, status := "draft",
              tags := [q.home, q.away, q.league, "Match Analysis", "Football Prediction",
                "Betting Tips"] }, ?_, ?_, ?_⟩
    · simp only [getAnalysisByIdUpdate, List.filter_append, hidnil, List.nil_append,
        List.filter_cons, List.filter_nil, decide_eq_true_eq]
      simp
    · rfl
    · rfl
  · refine ⟨(wpStyleBlock ++ (wpHeader ⟨q.home ++ " vs " ++ q.away, q.league, q.date⟩ ++ wpIntro
        ++ "<h2>Match Analysis</h2>")).data,
      (wpDbSection r (formatMainAnalysis r) ++ wpConclusion
        ++ "\n    <!-- /wp:html -->\n    ").data, ?_⟩
    simp only [formatContentForWordpress, strDataAppend, List.append_assoc]

/-- Witness for claim C6: storing an enhanced-analysis result for Arsenal
    vs Chelsea in an empty store, the existence check finds exactly the
    stored record id. -/
theorem c6_store_load_roundtrip_witness :
    (saveAnalysisForWordpress
        ⟨[⟨1, "Arsenal", "Arsenal FC"⟩, ⟨2, "Chelsea", "Chelsea FC"⟩], [], [], [], 0⟩
        ⟨"Arsenal" ++ " vs " ++ "Chelsea", "Premier League", ⟨2024, 5, 1⟩⟩
        { enhanced_analysis := some "Good game ahead." } "draft").1 = (true, some 0)
    ∧ checkAnalysisExists
        (dbBackend
          (saveAnalysisForWordpress
              ⟨[⟨1, "Arsenal", "Arsenal FC"⟩, ⟨2, "Chelsea", "Chelsea FC"⟩], [], [], [], 0⟩
              ⟨"Arsenal" ++ " vs " ++ "Chelsea", "Premier League", ⟨2024, 5, 1⟩⟩
              { enhanced_analysis := some "Good game ahead." } "draft").2)
        "Arsenal" "Chelsea" ⟨2024, 5, 1⟩
      = (true, some 0) :=
  ⟨(c6_store_load_roundtrip
      ⟨[⟨1, "Arsenal", "Arsenal FC"⟩, ⟨2, "Chelsea", "Chelsea FC"⟩], [], [], [], 0⟩
      ⟨"Arsenal", "Chelsea", "Premier League", ⟨2024, 5, 1⟩⟩
      { enhanced_analysis := some "Good game ahead." } 1 2
      (by decide) (by decide) (by decide) (by decide) (by decide) (by decide) (by decide)).1,
   (c6_store_load_roundtrip
      ⟨[⟨1, "Arsenal", "Arsenal FC"⟩, ⟨2, "Chelsea", "Chelsea FC"⟩], [], [], [], 0⟩
      ⟨"Arsenal", "Chelsea", "Premier League", ⟨2024, 5, 1⟩⟩
      { enhanced_analysis := some "Good game ahead." } 1 2
      (by decide) (by decide) (by decide) (by decide) (by decide) (by decide) (by decide)).2.1⟩
